import Mathlib

/-!
Shallow embedding of the RPC / connection-routing / reference-counting core of
the repository, together with theorems settling the frozen claims.

Source files embedded here:
- `src/packages/core/src/common/service-provider.ts`
  (`DefaultServiceProvider.getService`, `ServiceLifecycleImpl`)
- `src/packages/terminal/src/node/terminal-backend-module.ts`, second document
  (`DefaultRc`: `New`, `clone`, `dispose`, `disposeRef`)
- `src/packages/core/src/common/rpc.ts`
  (`RpcProxyHandler`, `DefaultRpc.createProxy`)
- `src/packages/core/src/common/route-handler.ts`
  (`DefaultRouteHandlerProvider.createRouteHandler`)
- `src/unnamed/part_000`
  (`FrontendServiceConnectionProvider.createConnectionHandler`,
  `BACKEND_PROXYING_ROUTE`)

JavaScript values that flow through these functions are modelled by `JsVal`
with the usual JS truthiness; thrown exceptions are modelled with
`Except`/`Option`; the mutable fields of the TypeScript classes become
explicit state records threaded through step functions.
-/

namespace Theia

/-- A JavaScript runtime value, as far as the embedded code inspects one:
the code only ever distinguishes values by truthiness, string-ness and
identity, so objects are represented by an identity tag. -/
inductive JsVal
  | undef
  | null
  | bool (b : Bool)
  | num (n : Int)
  | str (s : String)
  | obj (id : Nat)
  deriving Repr, DecidableEq

/-- JavaScript truthiness of a `JsVal` (what `if (service)` tests). -/
def JsVal.truthy : JsVal → Bool
  | .undef => false
  | .null => false
  | .bool b => b
  | .num n => n != 0
  | .str s => s != ""
  | .obj _ => true

/-! ## service-provider.ts -/

/-- `ServiceLifecycleImpl.track` (service-provider.ts line 207): the body is
`return disposable;` — it returns the disposable unchanged and registers
nothing anywhere. -/
def ServiceLifecycleImpl.track (disposable : JsVal) : JsVal := disposable

/-- Outcome of invoking a contribution factory: it either returns a value or
throws (thrown exceptions are caught by `getService` and logged). -/
inductive ContributionResult
  | value (v : JsVal)
  | thrown
  deriving Repr

/-- A `ServiceContribution` (service-provider.ts line 96): either a dispatch
function `(serviceId, params, lifecycle) => any`, a record mapping service ids
to factories `(params, lifecycle) => any`, or an unexpected value of another
type (logged and skipped by `getService`). The `lifecycle` argument is not a
parameter here because `ServiceLifecycleImpl.track` is the identity and the
other members of `ServiceLifecycleImpl` are constant `Event.None`. -/
inductive ServiceContribution
  | fn (f : String → JsVal → ContributionResult)
  | record (entries : List (String × (JsVal → ContributionResult)))
  | other

/-- One iteration of the `getService` loop body (service-provider.ts lines
180-196): run the contribution, catching anything it throws; a record with no
entry for `serviceId` yields `undefined`
(`contribution[serviceId]?.(params, lifecycle)`); contributions of an
unexpected type are logged and skipped. `none` means this iteration hit
`continue` through the catch block or the unexpected-type branch. -/
def tryContribution (c : ServiceContribution) (serviceId : String) (params : JsVal) :
    Option JsVal :=
  match c with
  | .fn f =>
    match f serviceId params with
    | .value v => some v
    | .thrown => none
  | .record entries =>
    match entries.lookup serviceId with
    | some f =>
      match f params with
      | .value v => some v
      | .thrown => none
    | none => some .undef
  | .other => none

/-- Result of a successful `getService` call: the resolved service together
with what the returned dispose function does when invoked. In the source the
returned function is `() => { /* TODO */ }` (service-provider.ts line 192),
so the list of disposable identities it disposes is recorded verbatim from
that body. -/
structure GetServiceSuccess where
  service : JsVal
  releaseDisposes : List Nat
  deriving Repr, DecidableEq

/-- `DefaultServiceProvider.getService` (service-provider.ts lines 178-199):
try each contribution in registration order; a truthy result wins
(`if (service)`); exceptions are caught and the loop continues; when the list
is exhausted, throw `no service found for "<serviceId>"`. -/
def DefaultServiceProvider.getService :
    List ServiceContribution → String → JsVal → Except String GetServiceSuccess
  | [], serviceId, _ =>
    .error ("no service found for \"" ++ serviceId ++ "\"")
  | c :: rest, serviceId, params =>
    match tryContribution c serviceId params with
    | some v =>
      if v.truthy then .ok ⟨v, []⟩
      else DefaultServiceProvider.getService rest serviceId params
    | none => DefaultServiceProvider.getService rest serviceId params

/-- The amended C4 resolution rule, stated independently of `getService`:
the first contribution whose (non-throwing) result is truthy provides the
service. Used to compare the source function against the corrected claim. -/
def firstTruthyService :
    List ServiceContribution → String → JsVal → Option JsVal
  | [], _, _ => none
  | c :: rest, serviceId, params =>
    match tryContribution c serviceId params with
    | some v =>
      if v.truthy then some v
      else firstTruthyService rest serviceId params
    | none => firstTruthyService rest serviceId params

/-- A contribution returning the defined but falsy value `0`. -/
def falsyContribution : ServiceContribution :=
  .fn (fun _ _ => .value (.num 0))

/-- A contribution returning the object tagged `1`. -/
def objContribution : ServiceContribution :=
  .fn (fun _ _ => .value (.obj 1))

/-- A record contribution whose factory for id `svc` passes the disposable
object tagged `7` through `lifecycle.track` and returns it, exactly like the
`terminalsPath` entry in terminal-backend-module.ts line 48. -/
def trackingContribution : ServiceContribution :=
  .record [("svc", fun _ => .value (ServiceLifecycleImpl.track (.obj 7)))]

/-! ## Path patterns (route-parser)

The pattern matcher itself is the external `route-parser` npm package, not
repository code. Modelled from the spec: string patterns are split into
segments on `/`; a segment written `:name` captures the corresponding path
segment into the extracted params under key `name`; any other segment must
match literally; pattern and path must have the same number of segments. -/

/-- Split a character list into `/`-separated segments (accumulator holds the
current segment reversed). -/
def segsAux : List Char → List Char → List (List Char)
  | [], acc => [acc.reverse]
  | c :: cs, acc =>
    if c = '/' then acc.reverse :: segsAux cs []
    else segsAux cs (c :: acc)

/-- Match pattern segments against path segments, extracting `:name`
captures. -/
def matchSegments : List (List Char) → List (List Char) → Option (List (String × String))
  | [], [] => some []
  | p :: ps, q :: qs =>
    match p with
    | ':' :: nm => (matchSegments ps qs).map (fun r => (String.mk nm, String.mk q) :: r)
    | _ => if p = q then matchSegments ps qs else none
  | _, _ => none

/-- Modelled from the spec: `new Route(pattern).match(path)` for the `:name`
pattern language of section 6 of the spec (the route-parser implementation is
an external dependency and not under src/). -/
def matchPattern (pattern path : String) : Option (List (String × String)) :=
  matchSegments (segsAux pattern.toList []) (segsAux path.toList [])

/-! ## route-handler.ts -/

/-- The value found at `params.path` on an inbound open request: absent,
a string, or present with some non-string type. -/
inductive PathParam
  | str (s : String)
  | nonString
  deriving Repr, DecidableEq

/-- Inbound params for a handler: the optional `path` plus whatever other
fields the record carries (`rest`, spread through unchanged). -/
structure InboundParams (ρ : Type) where
  path : Option PathParam
  rest : ρ

/-- The enriched params handed to the wrapped handler:
`{ ...params, route: { spec, params: routeParams } }`
(route-handler.ts lines 66-72). -/
structure EnrichedParams (ρ : Type) where
  params : InboundParams ρ
  routeSpec : String
  routeParams : List (String × String)

/-- `DefaultRouteHandlerProvider.createRouteHandler` (route-handler.ts lines
53-74), parametrised by the matcher `new Route(spec).match`: no string path
means `next()`; a falsy match result means `next()`; a match invokes the
wrapped handler with the enriched params and the same `accept` and `next`. -/
def createRouteHandler {ρ α β : Type}
    (matcher : String → Option (List (String × String))) (spec : String)
    (handler : EnrichedParams ρ → α → (Unit → β) → β) :
    InboundParams ρ → α → (Unit → β) → β :=
  fun params accept next =>
    match params.path with
    | some (.str s) =>
      match matcher s with
      | some routeParams => handler ⟨params, spec, routeParams⟩ accept next
      | none => next ()
    | _ => next ()

/-! ## DefaultRc (terminal-backend-module.ts, second document, lines 177-273)

The shared `DefaultRcState` record is `{disposeCallback?, reviveCallback?,
onWillDisposeReferenceEmitter, count, ref?}`; each `DefaultRc` handle carries
its own `disposed` flag. The model below threads one record holding the
shared state, the per-handle `disposed` flags (`handles`, indexed by creation
order), and two ghost counters instrumenting how often the underlying
resource was disposed and how often a revive callback ran.

The custom dispose callback is arbitrary user code; it interacts with the
`Rc` only through the deferred-dispose closure it receives and the optional
revive callback it returns (the documented contract of `RcDisposeCallback`).
Its behaviour at each invocation is therefore modelled as a nondeterministic
choice `CbAct`: call the closure synchronously or not, stash it for a later
call or not, return a revive callback or not. -/

/-- Behaviour of one invocation of the custom dispose callback. -/
structure CbAct where
  callNow : Bool
  keep : Bool
  revive : Bool
  deriving Repr, DecidableEq

/-- The shared `DefaultRcState` plus per-handle flags and ghost counters.
`refLive` models `state.ref !== undefined`; `reviveSet` models
`state.reviveCallback !== undefined`; `hasCallback` models
`state.disposeCallback !== undefined`; `deferredAvailable` records that some
dispose-callback invocation stashed its deferred-dispose closure. -/
structure RcState where
  hasCallback : Bool
  count : Int
  handles : List Bool
  refLive : Bool
  reviveSet : Bool
  deferredAvailable : Bool
  refDisposeCount : Nat
  reviveCount : Nat
  deriving Repr, DecidableEq

/-- `DefaultRc.New` (lines 190-197) followed by the constructor body (lines
201-209): fresh state with `count = 0`, then `count += 1`; the revive check
in the constructor cannot fire because `reviveCallback` is undefined. -/
def DefaultRc.New (hasCallback : Bool) : RcState :=
  { hasCallback := hasCallback
    count := 1
    handles := [false]
    refLive := true
    reviveSet := false
    deferredAvailable := false
    refDisposeCount := 0
    reviveCount := 0 }

/-- `DefaultRc.disposeRef` (lines 267-272): fire the will-dispose emitter,
dispose the underlying resource, clear `state.ref`. If `state.ref` is already
undefined, the source crashes on `this.state.ref!.dispose()` before reaching
the resource, so the resource is not disposed again; the model keeps the
state unchanged in that case. -/
def DefaultRc.disposeRef (s : RcState) : RcState :=
  if s.refLive then
    { s with refDisposeCount := s.refDisposeCount + 1, refLive := false }
  else s

/-- `DefaultRc.clone` (lines 228-234): throws `REF_DISPOSED` when
`state.ref` is gone (state unchanged); otherwise runs the constructor on the
shared state: `count += 1`, and when the count just became 1 and a revive
callback is pending, invoke it and clear it (lines 204-208). A new handle
with its own false `disposed` flag is appended. -/
def DefaultRc.clone (s : RcState) : RcState :=
  if s.refLive then
    { s with
      count := s.count + 1
      handles := s.handles ++ [false]
      reviveCount :=
        if s.count + 1 = 1 ∧ s.reviveSet then s.reviveCount + 1 else s.reviveCount
      reviveSet :=
        if s.count + 1 = 1 ∧ s.reviveSet then false else s.reviveSet }
  else s

/-- `DefaultRc.dispose` (lines 236-257) called on handle `h`: a handle that
is unknown or already disposed logs a trace and returns; otherwise mark the
handle disposed and decrement the count; at count 0 either run the custom
dispose callback (which may call the deferred closure now, stash it, and
return a revive callback) or dispose the resource directly. -/
def DefaultRc.dispose (s : RcState) (h : Nat) (cb : CbAct) : RcState :=
  if s.handles.getD h true then s
  else
    let s1 : RcState := { s with handles := s.handles.set h true, count := s.count - 1 }
    if s1.count = 0 then
      if s1.hasCallback then
        let s2 := if cb.callNow then DefaultRc.disposeRef s1 else s1
        let s3 := if cb.keep then { s2 with deferredAvailable := true } else s2
        if cb.revive then { s3 with reviveSet := true } else s3
      else DefaultRc.disposeRef s1
    else s1

/-- A later invocation of a stashed deferred-dispose closure
`() => { if (this.state.count === 0) this.disposeRef(); }` (lines 245-249):
a no-op unless some closure was stashed, and guarded on `count === 0`. -/
def DefaultRc.callDeferred (s : RcState) : RcState :=
  if s.deferredAvailable then
    if s.count = 0 then DefaultRc.disposeRef s else s
  else s

/-- One externally triggerable operation on the shared `Rc` state: a
`clone()` on any live handle, a `dispose()` on handle `h` whose callback (if
it runs) behaves as `cb`, or an invocation of a stashed deferred-dispose
closure. -/
inductive RcOp
  | clone
  | dispose (h : Nat) (cb : CbAct)
  | callDeferred
  deriving Repr, DecidableEq

/-- Apply one operation. -/
def stepRc (s : RcState) : RcOp → RcState
  | .clone => DefaultRc.clone s
  | .dispose h cb => DefaultRc.dispose s h cb
  | .callDeferred => DefaultRc.callDeferred s

/-- Run a sequence of operations. -/
def runRc (s : RcState) (ops : List RcOp) : RcState :=
  ops.foldl stepRc s

/-- Total number of handles ever created: the initial one plus every
successful `clone()`. -/
def numHandles (s : RcState) : Nat := s.handles.length

/-- Number of `true` entries in a list of handle flags. -/
def countTrue : List Bool → Nat
  | [] => 0
  | b :: t => (if b then 1 else 0) + countTrue t

/-- Number of `dispose()` calls performed on distinct not-yet-disposed
handles (the effective decrements). -/
def numDisposed (s : RcState) : Nat := countTrue s.handles

/-- Book-keeping invariant of the shared `Rc` state: the count equals live
handles minus effective disposals; the underlying resource has been disposed
exactly once iff `state.ref` was cleared; a positive count implies the target
is still set; and without a custom dispose callback the target is set iff the
count is positive, and no deferred-dispose closure is ever stashed. -/
def RcInv (s : RcState) : Prop :=
  s.count = (numHandles s : Int) - (numDisposed s : Int) ∧
  (s.refLive = true → s.refDisposeCount = 0) ∧
  (s.refLive = false → s.refDisposeCount = 1) ∧
  (0 < s.count → s.refLive = true) ∧
  (s.hasCallback = false →
    ((s.refLive = true ↔ 0 < s.count) ∧ s.deferredAvailable = false))

/-- The part of `RcInv` that pins the underlying dispose count to the
`state.ref` field, preserved from any starting state. -/
def DisposeInv (s : RcState) : Prop :=
  (s.refLive = true → s.refDisposeCount = 0) ∧
  (s.refLive = false → s.refDisposeCount = 1)

/-! ## rpc.ts: RpcProxyHandler and the proxy -/

/-- A property key used to index the proxy: JavaScript allows strings and
symbols. -/
inductive PropKey
  | str (s : String)
  | sym (id : Nat)
  deriving Repr, DecidableEq

/-- Errors thrown by `RpcProxyHandler.get`: `invalidProxy` is
`new Error(this instance is no longer valid!)` thrown after disposal
(the InvalidProxyError of the spec), `nonStringKey` is
`new Error(you can only index this proxy with strings)`. -/
inductive RpcErr
  | invalidProxy
  | nonStringKey
  deriving Repr, DecidableEq

/-- A value stored in the proxy handler cache. `uid` models JavaScript
object identity: every newly created function or emitter gets a fresh uid,
so two reads returning equal `uid`s return the identical object. -/
inductive ProxyMember
  | methodStub (name : String) (uid : Nat)
  | eventHandle (name : String) (uid : Nat)
  | disposeFn (uid : Nat)
  deriving Repr, DecidableEq

/-- State of an `RpcProxyHandler` (rpc.ts lines 180-229): the `disposed`
flag, the per-property cache, the emitter registry, and a fresh-uid counter.
`isEventName` stands for `Reflection.isEventName`; reflection.ts is not under
src/, so the naming convention is kept as an abstract parameter. -/
structure RpcProxyHandler where
  isEventName : String → Bool
  disposed : Bool
  cache : List (String × ProxyMember)
  emitters : List (String × Nat)
  nextUid : Nat

/-- The `RpcProxyHandler` constructor (rpc.ts lines 186-200): seed the cache
with the special `dispose` member and register the notification and close
handlers on the connection (the close handler invokes
`RpcProxyHandler.dispose`, modelled by `handleClose`). -/
def RpcProxyHandler.new (isEventName : String → Bool) : RpcProxyHandler :=
  { isEventName := isEventName
    disposed := false
    cache := [("dispose", .disposeFn 0)]
    emitters := []
    nextUid := 1 }

/-- `RpcProxyHandler.get` (rpc.ts lines 202-221): throw once disposed; throw
on non-string keys; otherwise return the cached member for the property, or
create one (an event handle for event-shaped names, an async request stub
otherwise), cache it, and return it. -/
def RpcProxyHandler.get (h : RpcProxyHandler) (p : PropKey) :
    Except RpcErr (ProxyMember × RpcProxyHandler) :=
  if h.disposed then .error .invalidProxy
  else
    match p with
    | .sym _ => .error .nonStringKey
    | .str s =>
      match h.cache.lookup s with
      | some m => .ok (m, h)
      | none =>
        if h.isEventName s then
          let m := ProxyMember.eventHandle s h.nextUid
          .ok (m, { h with
            emitters := h.emitters ++ [(s, h.nextUid)]
            cache := h.cache ++ [(s, m)]
            nextUid := h.nextUid + 1 })
        else
          let m := ProxyMember.methodStub s h.nextUid
          .ok (m, { h with
            cache := h.cache ++ [(s, m)]
            nextUid := h.nextUid + 1 })

/-- `RpcProxyHandler.dispose` (rpc.ts lines 223-228), run when the underlying
connection reports closed (`rpcConnection.onClose(() => this.dispose())`):
set the flag, dispose and clear the emitters, clear the cache. -/
def RpcProxyHandler.handleClose (h : RpcProxyHandler) : RpcProxyHandler :=
  { h with disposed := true, emitters := [], cache := [] }

/-- Invoking the cached `dispose` member (rpc.ts lines 190-195): when not yet
disposed, set the flag and close the connection. The returned Bool records
whether `rpcConnection.close()` was called. -/
def disposeMemberCall (h : RpcProxyHandler) : RpcProxyHandler × Bool :=
  if h.disposed then (h, false)
  else ({ h with disposed := true }, true)

/-- One request on the wire: `{method, params}`. -/
structure RpcRequest where
  method : String
  params : List JsVal
  deriving Repr, DecidableEq

/-- The remote side of an `RpcConnection`, reduced to what `sendRequest`
observes: the response value for each request. -/
structure RpcConnection where
  respond : String → List JsVal → JsVal

/-- Log of requests sent so far on a connection. -/
structure ConnState where
  sent : List RpcRequest
  deriving Repr, DecidableEq

/-- `rpcConnection.sendRequest(method, params)`: append one request to the
wire log and resolve with the response correlated to it. -/
def RpcConnection.sendRequest (conn : RpcConnection) (st : ConnState)
    (method : String) (params : List JsVal) : ConnState × JsVal :=
  ({ sent := st.sent ++ [⟨method, params⟩] }, conn.respond method params)

/-- Calling the cached async stub
`async (...params) => this.rpcConnection.sendRequest(property, params)`
(rpc.ts line 216). -/
def methodStubCall (conn : RpcConnection) (st : ConnState)
    (name : String) (args : List JsVal) : ConnState × JsVal :=
  RpcConnection.sendRequest conn st name args

/-! ## FrontendServiceConnectionProvider (src/unnamed/part_000, lines 218-244) -/

/-- State of the `Deferred<AnyConnection>` backing the backend-proxying
connection (`this.deferredConnection.state`). -/
inductive DeferredState
  | unresolved
  | resolved
  | rejected
  deriving Repr, DecidableEq

/-- Observable outcome of running the connection handler on one inbound
connection: it called `next()`, called `next(new Error(msg))`, or called
`accept()` (and resolved the deferred connection with the result). -/
inductive ConnOutcome
  | nextPlain
  | nextError (msg : String)
  | accepted
  deriving Repr, DecidableEq

/-- The handler returned by
`FrontendServiceConnectionProvider.createConnectionHandler`
(src/unnamed/part_000 lines 226-243), acting on the deferred-connection state:
non-string path → `next()`; path not matching `BACKEND_PROXYING_ROUTE`
(`new Route(/backend-proxying/)`) → `next()`; deferred state not
`unresolved` → `next(new Error(invalid connection))`; otherwise `accept()`
and resolve the deferred connection. -/
def FrontendServiceConnectionProvider.handleConnection
    (st : DeferredState) (path : Option PathParam) : ConnOutcome × DeferredState :=
  match path with
  | some (.str s) =>
    match matchPattern "/backend-proxying/" s with
    | some _ =>
      if st = .unresolved then (.accepted, .resolved)
      else (.nextError "invalid connection", st)
    | none => (.nextPlain, st)
  | _ => (.nextPlain, st)

/-! ## Theorems -/

/-- C4 counterexample: with a first contribution returning the defined value
`0` and a second returning an object, the claim predicts the defined `0`
wins, but `getService` skips the falsy `0` and returns the object. -/
theorem getService_first_defined_counterexample :
    tryContribution falsyContribution "x" .undef = some (.num 0) ∧
    JsVal.num 0 ≠ JsVal.undef ∧
    DefaultServiceProvider.getService [falsyContribution, objContribution] "x" .undef =
      .ok ⟨.obj 1, []⟩ ∧
    JsVal.obj 1 ≠ JsVal.num 0 :=
  ⟨rfl, by decide, rfl, by decide⟩

/-- C4 (amended): `getService` tries the contributions in registration order
and the first truthy (not merely defined) result wins; if no contribution
yields a truthy result the call throws
`no service found for "<serviceId>"`. -/
theorem getService_first_truthy_wins
    (cs : List ServiceContribution) (serviceId : String) (params : JsVal) :
    DefaultServiceProvider.getService cs serviceId params =
      match firstTruthyService cs serviceId params with
      | some v => .ok ⟨v, []⟩
      | none => .error ("no service found for \"" ++ serviceId ++ "\"") := by
  induction cs with
  | nil => rfl
  | cons c rest ih =>
    simp only [DefaultServiceProvider.getService, firstTruthyService]
    cases tryContribution c serviceId params with
    | none => exact ih
    | some v =>
      cases hv : v.truthy with
      | false => simpa [hv] using ih
      | true => simp [hv]

/-- C2: whatever the contributions do, `ServiceLifecycleImpl.track` returns
the tracked disposable unchanged and the dispose function handed back by a
successful `getService` call disposes nothing when invoked (its body is the
empty `/* TODO */` closure), so a tracked disposable is never disposed. -/
theorem getService_release_never_disposes
    (cs : List ServiceContribution) (serviceId : String) (params : JsVal)
    (r : GetServiceSuccess)
    (h : DefaultServiceProvider.getService cs serviceId params = .ok r) :
    r.releaseDisposes = [] ∧ ∀ d, ServiceLifecycleImpl.track d = d := by
  refine ⟨?_, fun _ => rfl⟩
  induction cs with
  | nil => exact absurd h (by simp [DefaultServiceProvider.getService])
  | cons c rest ih =>
    simp only [DefaultServiceProvider.getService] at h
    cases htc : tryContribution c serviceId params with
    | none =>
      simp only [htc] at h
      exact ih h
    | some v =>
      simp only [htc] at h
      by_cases hv : v.truthy = true
      · rw [if_pos hv] at h
        injection h with h2
        rw [← h2]
      · rw [if_neg hv] at h
        exact ih h

/-- C2 witness: the terminal-style contribution that tracks the disposable
object `7` resolves, yet the returned dispose function releases nothing. -/
theorem getService_release_never_disposes_witness :
    ∃ r : GetServiceSuccess,
      DefaultServiceProvider.getService [trackingContribution] "svc" .undef = .ok r ∧
      r.releaseDisposes = [] :=
  ⟨⟨.obj 7, []⟩, rfl,
    (getService_release_never_disposes [trackingContribution] "svc" .undef
      ⟨.obj 7, []⟩ rfl).1⟩

/-- C7: once the connection reported closed (running
`RpcProxyHandler.dispose`, here `handleClose`) or the special `dispose`
member was invoked, every property access on the proxy throws the
invalid-proxy error instead of returning a stub or event. -/
theorem proxy_access_after_close_invalid (h : RpcProxyHandler) (p : PropKey) :
    RpcProxyHandler.get (RpcProxyHandler.handleClose h) p = .error .invalidProxy ∧
    RpcProxyHandler.get (disposeMemberCall h).1 p = .error .invalidProxy := by
  constructor
  · simp [RpcProxyHandler.get, RpcProxyHandler.handleClose]
  · by_cases hd : h.disposed <;>
      simp [RpcProxyHandler.get, disposeMemberCall, hd]

/-- C10: on a not-yet-disposed proxy, accessing a property with a non-string
(symbol) key throws the strings-only error rather than returning a callable
or an event. -/
theorem proxy_non_string_key_throws (h : RpcProxyHandler) (i : Nat)
    (hd : h.disposed = false) :
    RpcProxyHandler.get h (.sym i) = .error .nonStringKey := by
  simp [RpcProxyHandler.get, hd]

/-- C10 witness: a fresh proxy handler rejects a symbol key. -/
theorem proxy_non_string_key_throws_witness :
    RpcProxyHandler.get (RpcProxyHandler.new (fun _ => false)) (.sym 0) =
      .error .nonStringKey :=
  proxy_non_string_key_throws (RpcProxyHandler.new (fun _ => false)) 0 rfl

/-- C6: on a fresh proxy over an open connection, reading a non-event
property `name` yields the async stub for `name`; calling it with `args`
appends exactly one request `{method := name, params := args}` to the wire
log and resolves with the response correlated to it; and reading the same
property again returns the identical cached stub (same uid) with the handler
state unchanged. -/
theorem proxy_call_single_request_and_stable_stub
    (isEv : String → Bool) (conn : RpcConnection) (st : ConnState)
    (name : String) (args : List JsVal)
    (hev : isEv name = false) (hname : name ≠ "dispose") :
    ∃ m h1,
      RpcProxyHandler.get (RpcProxyHandler.new isEv) (.str name) = .ok (m, h1) ∧
      m = ProxyMember.methodStub name 1 ∧
      methodStubCall conn st name args =
        ({ sent := st.sent ++ [⟨name, args⟩] }, conn.respond name args) ∧
      RpcProxyHandler.get h1 (.str name) = .ok (m, h1) := by
  refine ⟨ProxyMember.methodStub name 1,
    { isEventName := isEv, disposed := false,
      cache := [("dispose", .disposeFn 0), (name, ProxyMember.methodStub name 1)],
      emitters := [], nextUid := 2 }, ?_, rfl, rfl, ?_⟩
  · have hbeq : (name == "dispose") = false := beq_eq_false_iff_ne.mpr hname
    simp [RpcProxyHandler.get, RpcProxyHandler.new, List.lookup, hbeq, hev]
  · have hbeq : (name == "dispose") = false := beq_eq_false_iff_ne.mpr hname
    simp [RpcProxyHandler.get, RpcProxyHandler.new, List.lookup, hbeq, hev]

/-- C6 witness: `proxy.foo(1, 2)` on a fresh proxy sends exactly the request
`{method := foo, params := [1, 2]}`, resolves with the response `42`, and a
second read of `foo` returns the identical cached stub. -/
theorem proxy_call_single_request_and_stable_stub_witness :
    ∃ m h1,
      RpcProxyHandler.get (RpcProxyHandler.new (fun _ => false)) (.str "foo") =
        .ok (m, h1) ∧
      m = ProxyMember.methodStub "foo" 1 ∧
      methodStubCall ⟨fun _ _ => .num 42⟩ ⟨[]⟩ "foo" [.num 1, .num 2] =
        ({ sent := [⟨"foo", [.num 1, .num 2]⟩] }, .num 42) ∧
      RpcProxyHandler.get h1 (.str "foo") = .ok (m, h1) :=
  proxy_call_single_request_and_stable_stub (fun _ => false) ⟨fun _ _ => .num 42⟩
    ⟨[]⟩ "foo" [.num 1, .num 2] rfl (by decide)

/-- C8: a route handler built by `createRouteHandler` declines with `next()`
when the inbound params carry no string path or the path does not match the
pattern, and on a match invokes the wrapped handler with the named-segment
captures in `route.params`, passing `accept` and `next` through unchanged. -/
theorem createRouteHandler_matches_and_declines {ρ α β : Type}
    (matcher : String → Option (List (String × String))) (spec : String)
    (handler : EnrichedParams ρ → α → (Unit → β) → β)
    (p : InboundParams ρ) (accept : α) (next : Unit → β) :
    (p.path = none →
      createRouteHandler matcher spec handler p accept next = next ()) ∧
    (p.path = some .nonString →
      createRouteHandler matcher spec handler p accept next = next ()) ∧
    (∀ s, p.path = some (.str s) → matcher s = none →
      createRouteHandler matcher spec handler p accept next = next ()) ∧
    (∀ s rp, p.path = some (.str s) → matcher s = some rp →
      createRouteHandler matcher spec handler p accept next =
        handler ⟨p, spec, rp⟩ accept next) := by
  refine ⟨fun hp => ?_, fun hp => ?_, fun s hp hm => ?_, fun s rp hp hm => ?_⟩ <;>
    simp [createRouteHandler, hp] <;> simp [hm]

/-- C8 witness: the pattern `/terminals/:terminalId` applied to the path
`/terminals/42` invokes the wrapped handler with the capture
`terminalId := 42`. -/
theorem createRouteHandler_matches_and_declines_witness :
    @createRouteHandler Unit Unit (List (String × String))
      (matchPattern "/terminals/:terminalId") "/terminals/:terminalId"
      (fun e _ _ => e.routeParams)
      ⟨some (.str "/terminals/42"), ()⟩ () (fun _ => []) =
      [("terminalId", "42")] :=
  (createRouteHandler_matches_and_declines
      (matchPattern "/terminals/:terminalId") "/terminals/:terminalId"
      (fun e _ _ => e.routeParams)
      ⟨some (.str "/terminals/42"), ()⟩ () (fun _ => [])).2.2.2
    "/terminals/42" [("terminalId", "42")] rfl (by decide)

/-- C9: on the single-use backend-proxying route, a matching connection that
arrives while the deferred connection is unresolved is accepted and resolves
it; once the deferred connection is no longer unresolved, every matching
connection is declined by `next(new Error(invalid connection))`; and no
inbound connection ever returns the state to unresolved. -/
theorem backend_proxying_single_use (st : DeferredState) (s : String)
    (hm : (matchPattern "/backend-proxying/" s).isSome = true) :
    (st = .unresolved →
      FrontendServiceConnectionProvider.handleConnection st (some (.str s)) =
        (.accepted, .resolved)) ∧
    (st ≠ .unresolved →
      FrontendServiceConnectionProvider.handleConnection st (some (.str s)) =
        (.nextError "invalid connection", st)) ∧
    (∀ p, st ≠ .unresolved →
      (FrontendServiceConnectionProvider.handleConnection st p).2 = st) := by
  obtain ⟨rp, hrp⟩ := Option.isSome_iff_exists.mp hm
  refine ⟨fun hst => ?_, fun hst => ?_, fun p hst => ?_⟩
  · simp [FrontendServiceConnectionProvider.handleConnection, hrp, hst]
  · simp [FrontendServiceConnectionProvider.handleConnection, hrp, hst]
  · rcases p with _ | pp
    · rfl
    · rcases pp with s' | _
      · simp only [FrontendServiceConnectionProvider.handleConnection]
        rcases hmm : matchPattern "/backend-proxying/" s' with _ | rp'
        · rfl
        · simp [hst]
      · rfl

/-- C9 witness: the first connection on `/backend-proxying/` is accepted and
resolves the deferred connection; a second one is declined with the invalid
connection error. -/
theorem backend_proxying_single_use_witness :
    FrontendServiceConnectionProvider.handleConnection .unresolved
        (some (.str "/backend-proxying/")) = (.accepted, .resolved) ∧
    FrontendServiceConnectionProvider.handleConnection .resolved
        (some (.str "/backend-proxying/")) =
      (.nextError "invalid connection", .resolved) :=
  ⟨(backend_proxying_single_use .unresolved "/backend-proxying/" (by decide)).1 rfl,
   (backend_proxying_single_use .resolved "/backend-proxying/" (by decide)).2.1
     (by decide)⟩

/-! ## Rc lemmas -/

theorem countTrue_append (l r : List Bool) :
    countTrue (l ++ r) = countTrue l + countTrue r := by
  induction l with
  | nil => simp [countTrue]
  | cons b t ih => simp [countTrue, ih]; omega

theorem countTrue_le_length (l : List Bool) : countTrue l ≤ l.length := by
  induction l with
  | nil => simp [countTrue]
  | cons b t ih => cases b <;> simp [countTrue] <;> omega

theorem countTrue_set_true (l : List Bool) (h : Nat) (hl : l.getD h true = false) :
    h < l.length ∧ countTrue (l.set h true) = countTrue l + 1 ∧
      countTrue l < l.length := by
  induction l generalizing h with
  | nil => simp at hl
  | cons a t ih =>
    cases h with
    | zero =>
      simp only [List.getD_cons_zero] at hl
      subst hl
      have := countTrue_le_length t
      refine ⟨by simp, ?_, ?_⟩
      · simp [countTrue, List.set]
        omega
      · simp [countTrue]
        omega
    | succ n =>
      simp only [List.getD_cons_succ] at hl
      obtain ⟨h1, h2, h3⟩ := ih n hl
      refine ⟨by simp; omega, ?_, ?_⟩
      · cases a <;> simp [countTrue, List.set, h2] <;> omega
      · cases a <;> simp [countTrue] <;> omega

theorem rcInv_new (cb : Bool) : RcInv (DefaultRc.New cb) := by
  refine ⟨?_, ?_, ?_, ?_, ?_⟩ <;>
    simp [DefaultRc.New, numHandles, numDisposed, countTrue]

theorem rcInv_clone (s : RcState) (h : RcInv s) : RcInv (DefaultRc.clone s) := by
  obtain ⟨h1, h2, h3, h4, h5⟩ := h
  have hle := countTrue_le_length s.handles
  unfold numHandles numDisposed at h1
  unfold DefaultRc.clone
  cases hl : s.refLive with
  | false => exact ⟨h1, h2, h3, h4, h5⟩
  | true =>
    rw [if_pos rfl]
    refine ⟨?_, fun _ => h2 hl, fun hf => by simp at hf, fun _ => rfl,
      fun hcb => ⟨⟨fun _ => ?_, fun _ => rfl⟩, (h5 hcb).2⟩⟩
    · show s.count + 1 =
        ((s.handles ++ [false]).length : Int) - (countTrue (s.handles ++ [false]) : Int)
      rw [List.length_append, countTrue_append]
      simp only [countTrue, List.length_cons, List.length_nil]
      push_cast
      omega
    · show 0 < s.count + 1
      omega

theorem count_eq_after_set (s : RcState) (hd : Nat)
    (h1 : s.count = (s.handles.length : Int) - (countTrue s.handles : Int))
    (hset : countTrue (s.handles.set hd true) = countTrue s.handles + 1) :
    s.count - 1 =
      ((s.handles.set hd true).length : Int) - (countTrue (s.handles.set hd true) : Int) := by
  rw [List.length_set, hset]
  push_cast
  omega

theorem rcInv_count_zero (t : RcState) (hc : t.count = 0)
    (heq : t.count = (t.handles.length : Int) - (countTrue t.handles : Int))
    (hdc1 : t.refLive = true → t.refDisposeCount = 0)
    (hdc2 : t.refLive = false → t.refDisposeCount = 1)
    (hnocb : t.hasCallback = false →
      ((t.refLive = true ↔ 0 < t.count) ∧ t.deferredAvailable = false)) :
    RcInv t := by
  refine ⟨heq, hdc1, hdc2, fun hf => ?_, hnocb⟩
  rw [hc] at hf
  exact absurd hf (by omega)

theorem rcInv_dispose (s : RcState) (hd : Nat) (cb : CbAct) (h : RcInv s) :
    RcInv (DefaultRc.dispose s hd cb) := by
  obtain ⟨h1, h2, h3, h4, h5⟩ := h
  unfold DefaultRc.dispose
  cases hg : s.handles.getD hd true with
  | true => exact ⟨h1, h2, h3, h4, h5⟩
  | false =>
    obtain ⟨hlt, hset, hct⟩ := countTrue_set_true s.handles hd hg
    have hle := countTrue_le_length s.handles
    unfold numHandles numDisposed at h1
    have hcountpos : 0 < s.count := by omega
    have hlive : s.refLive = true := h4 hcountpos
    have hdc : s.refDisposeCount = 0 := h2 hlive
    have hceq := count_eq_after_set s hd h1 hset
    rw [hlive]
    by_cases hc1 : s.count - 1 = 0
    · cases hcb : s.hasCallback with
      | false =>
        simp [DefaultRc.disposeRef, hc1]
        refine ⟨?_, fun hf => absurd hf (by simp), fun _ => ?_, fun hf => ?_,
          fun _ => ⟨⟨fun hx => absurd hx (by simp), fun hx => ?_⟩, (h5 hcb).2⟩⟩
        · show (0 : Int) = ((s.handles.set hd true).length : Int) -
            (countTrue (s.handles.set hd true) : Int)
          omega
        · show s.refDisposeCount + 1 = 1
          omega
        · have hx : (0 : Int) < 0 := hf
          exact absurd hx (by omega)
        · have hx2 : (0 : Int) < 0 := hx
          exact absurd hx2 (by omega)
      | true =>
        cases hn : cb.callNow with
        | false =>
          cases hk : cb.keep <;> cases hr : cb.revive <;>
            simp [DefaultRc.disposeRef, hc1] <;>
            refine ⟨?_, fun _ => hdc, fun hf => absurd hf (by simp), fun hf => ?_,
              fun hf => absurd hf (by simp)⟩ <;>
            first
            | (show (0 : Int) = ((s.handles.set hd true).length : Int) -
                  (countTrue (s.handles.set hd true) : Int)
               omega)
            | (have hx : (0 : Int) < 0 := hf
               exact absurd hx (by omega))
        | true =>
          cases hk : cb.keep <;> cases hr : cb.revive <;>
            simp [DefaultRc.disposeRef, hc1] <;>
            refine ⟨?_, fun hf => absurd hf (by simp), fun _ => ?_, fun hf => ?_,
              fun hf => absurd hf (by simp)⟩ <;>
            first
            | (show (0 : Int) = ((s.handles.set hd true).length : Int) -
                  (countTrue (s.handles.set hd true) : Int)
               omega)
            | (show s.refDisposeCount + 1 = 1
               omega)
            | (have hx : (0 : Int) < 0 := hf
               exact absurd hx (by omega))
    · simp [hc1]
      refine ⟨hceq, fun _ => hdc, fun hf => absurd hf (by simp), fun _ => rfl,
        fun hcb => ⟨⟨fun _ => ?_, fun _ => rfl⟩, (h5 hcb).2⟩⟩
      show (0 : Int) < s.count - 1
      omega

theorem rcInv_callDeferred (s : RcState) (h : RcInv s) :
    RcInv (DefaultRc.callDeferred s) := by
  obtain ⟨h1, h2, h3, h4, h5⟩ := h
  unfold numHandles numDisposed at h1
  have hle := countTrue_le_length s.handles
  unfold DefaultRc.callDeferred
  cases ha : s.deferredAvailable with
  | false => exact ⟨h1, h2, h3, h4, h5⟩
  | true =>
    by_cases hc : s.count = 0
    · cases hl : s.refLive with
      | false =>
        simp [DefaultRc.disposeRef, hc, hl]
        exact ⟨h1, h2, h3, h4, h5⟩
      | true =>
        have hdc := h2 hl
        simp [DefaultRc.disposeRef, hc, hl]
        refine ⟨?_, fun hf => absurd hf (by simp), fun _ => ?_, fun hf => ?_,
          fun hcb => absurd (h5 hcb).2 (by simp [ha])⟩
        · show (0 : Int) = (s.handles.length : Int) - (countTrue s.handles : Int)
          omega
        · show s.refDisposeCount + 1 = 1
          omega
        · have hx : (0 : Int) < 0 := hf
          exact absurd hx (by omega)
    · simp [hc]
      exact ⟨h1, h2, h3, h4, h5⟩

theorem rcInv_step (s : RcState) (op : RcOp) (h : RcInv s) : RcInv (stepRc s op) := by
  cases op with
  | clone => exact rcInv_clone s h
  | dispose hd cb => exact rcInv_dispose s hd cb h
  | callDeferred => exact rcInv_callDeferred s h

theorem rcInv_run (s : RcState) (ops : List RcOp) (h : RcInv s) :
    RcInv (runRc s ops) := by
  induction ops generalizing s with
  | nil => exact h
  | cons op rest ih => exact ih (stepRc s op) (rcInv_step s op h)

theorem hasCallback_step (s : RcState) (op : RcOp) :
    (stepRc s op).hasCallback = s.hasCallback := by
  cases op <;>
    simp only [stepRc, DefaultRc.clone, DefaultRc.dispose, DefaultRc.callDeferred,
      DefaultRc.disposeRef] <;>
    split_ifs <;> rfl

theorem hasCallback_run (s : RcState) (ops : List RcOp) :
    (runRc s ops).hasCallback = s.hasCallback := by
  induction ops generalizing s with
  | nil => rfl
  | cons op rest ih =>
    rw [runRc, List.foldl_cons, ← runRc, ih, hasCallback_step]

theorem refLive_false_step (s : RcState) (op : RcOp) (h : s.refLive = false) :
    (stepRc s op).refLive = false := by
  cases op <;>
    simp only [stepRc, DefaultRc.clone, DefaultRc.dispose, DefaultRc.callDeferred,
      DefaultRc.disposeRef] <;>
    split_ifs <;> first | rfl | exact h

theorem refLive_false_run (s : RcState) (ops : List RcOp) (h : s.refLive = false) :
    (runRc s ops).refLive = false := by
  induction ops generalizing s with
  | nil => exact h
  | cons op rest ih =>
    exact ih (stepRc s op) (refLive_false_step s op h)

theorem disposeInv_step (s : RcState) (op : RcOp) (h : DisposeInv s) :
    DisposeInv (stepRc s op) := by
  obtain ⟨h1, h2⟩ := h
  cases op <;>
    simp only [stepRc, DefaultRc.clone, DefaultRc.dispose, DefaultRc.callDeferred,
      DefaultRc.disposeRef] <;>
    split_ifs <;>
    first
    | exact ⟨h1, h2⟩
    | (refine ⟨fun hf => ?_, fun hf => ?_⟩ <;> simp_all)

theorem disposeInv_run (s : RcState) (ops : List RcOp) (h : DisposeInv s) :
    DisposeInv (runRc s ops) := by
  induction ops generalizing s with
  | nil => exact h
  | cons op rest ih =>
    exact ih (stepRc s op) (disposeInv_step s op h)

theorem rc_exactly_once_of_inv (t : RcState) (hiv : RcInv t)
    (hcb : t.hasCallback = false) :
    t.refDisposeCount ≤ 1 ∧
      (t.refDisposeCount = 1 ↔ numDisposed t = numHandles t) := by
  obtain ⟨h1, h2, h3, h4, h5⟩ := hiv
  have hiff := (h5 hcb).1
  have hle := countTrue_le_length t.handles
  unfold numHandles numDisposed at h1 ⊢
  cases hl : t.refLive with
  | true =>
    have hdc := h2 hl
    have hcount : 0 < t.count := hiff.mp hl
    rw [hdc]
    refine ⟨by omega, ⟨fun hf => by omega, fun hf => by omega⟩⟩
  | false =>
    have hdc := h3 hl
    have hncount : ¬ 0 < t.count := by
      intro hx
      rw [hiff.mpr hx] at hl
      cases hl
    rw [hdc]
    refine ⟨by omega, ⟨fun _ => by omega, fun _ => rfl⟩⟩

/-- C1: wrapping a resource with `DefaultRc.New` (no custom dispose callback)
and running any finite sequence of `clone()`/`dispose()` calls on the
resulting handles, the underlying resource is disposed at most once, and it
has been disposed exactly once precisely when the number of `dispose()` calls
performed on distinct not-yet-disposed handles equals the total number of
handles created (the initial handle plus every successful `clone()`). -/
theorem rc_underlying_disposed_exactly_once (ops : List RcOp) :
    (runRc (DefaultRc.New false) ops).refDisposeCount ≤ 1 ∧
    ((runRc (DefaultRc.New false) ops).refDisposeCount = 1 ↔
      numDisposed (runRc (DefaultRc.New false) ops) =
        numHandles (runRc (DefaultRc.New false) ops)) :=
  rc_exactly_once_of_inv (runRc (DefaultRc.New false) ops)
    (rcInv_run (DefaultRc.New false) ops (rcInv_new false))
    (hasCallback_run (DefaultRc.New false) ops)

/-- C3 counterexample: with a custom dispose callback that defers (stashes
the dispose closure and returns a revive callback, the async-disposal-window
pattern the claim itself includes), disposing the only handle reaches a
reachable state whose live count is 0 while the target is still non-empty,
refuting the claimed iff. -/
theorem rc_target_iff_count_counterexample :
    ¬ ((runRc (DefaultRc.New true) [RcOp.dispose 0 ⟨false, true, true⟩]).refLive = true ↔
       0 < (runRc (DefaultRc.New true) [RcOp.dispose 0 ⟨false, true, true⟩]).count) := by
  decide

/-- C3 (amended): in every state reachable by New/clone/dispose (and deferred
dispose-closure invocations), a positive live count implies the target is
non-empty; when no custom dispose callback is supplied the target is
non-empty exactly when the live count is positive; and once the target is
cleared it never becomes non-empty again. -/
theorem rc_target_invariant_amended (cb : Bool) (ops more : List RcOp) :
    (0 < (runRc (DefaultRc.New cb) ops).count →
      (runRc (DefaultRc.New cb) ops).refLive = true) ∧
    (cb = false →
      ((runRc (DefaultRc.New cb) ops).refLive = true ↔
        0 < (runRc (DefaultRc.New cb) ops).count)) ∧
    ((runRc (DefaultRc.New cb) ops).refLive = false →
      (runRc (runRc (DefaultRc.New cb) ops) more).refLive = false) := by
  have hiv := rcInv_run (DefaultRc.New cb) ops (rcInv_new cb)
  obtain ⟨h1, h2, h3, h4, h5⟩ := hiv
  refine ⟨h4, fun hcb => ?_, fun hl => refLive_false_run _ more hl⟩
  have hcb2 : (runRc (DefaultRc.New cb) ops).hasCallback = false := by
    rw [hasCallback_run, DefaultRc.New]
    exact hcb
  exact (h5 hcb2).1

/-- C3 witness: a clone keeps the target non-empty via the amended invariant,
and after an immediate full disposal the target stays empty across further
operations. -/
theorem rc_target_invariant_amended_witness :
    (runRc (DefaultRc.New false) [RcOp.clone]).refLive = true ∧
    (runRc (runRc (DefaultRc.New true) [RcOp.dispose 0 ⟨true, false, false⟩])
      [RcOp.clone]).refLive = false :=
  ⟨(rc_target_invariant_amended false [RcOp.clone] []).1 (by decide),
   (rc_target_invariant_amended true [RcOp.dispose 0 ⟨true, false, false⟩]
     [RcOp.clone]).2.2 (by decide)⟩

theorem rc_revive_general (S : RcState) (more : List RcOp)
    (hc : S.count = 0) (hl : S.refLive = true) (hr : S.reviveSet = true)
    (hd : S.refDisposeCount = 0) :
    (stepRc S .clone).refDisposeCount = 0 ∧
    (stepRc S .clone).reviveCount = S.reviveCount + 1 ∧
    stepRc (stepRc S .clone) .callDeferred = stepRc S .clone ∧
    ((runRc (stepRc S .clone) more).refLive = false →
      (runRc (stepRc S .clone) more).refDisposeCount = 1) := by
  refine ⟨?_, ?_, ?_, ?_⟩
  · show (DefaultRc.clone S).refDisposeCount = 0
    simp [DefaultRc.clone, hl, hd]
  · show (DefaultRc.clone S).reviveCount = S.reviveCount + 1
    simp [DefaultRc.clone, hl, hc, hr]
  · show DefaultRc.callDeferred (DefaultRc.clone S) = DefaultRc.clone S
    simp [DefaultRc.clone, DefaultRc.callDeferred, hl, hc]
  · intro hf
    have hDI : DisposeInv (stepRc S .clone) := by
      constructor <;> intro hx <;>
        simp [stepRc, DefaultRc.clone, hl, hd] at hx ⊢
    exact (disposeInv_run (stepRc S .clone) more hDI).2 hf

/-- C5: from any reachable state where the count has hit zero, the target is
still set, and the dispose callback has returned a revive function while the
resource is still undisposed: taking a new reference (clone) does not dispose
the resource and runs the revive callback; a later invocation of the deferred
dispose closure is a no-op; and once the target is eventually cleared after
the new references are released, the resource has been disposed exactly
once. -/
theorem rc_revive_prevents_dispose (ops more : List RcOp)
    (hc : (runRc (DefaultRc.New true) ops).count = 0)
    (hl : (runRc (DefaultRc.New true) ops).refLive = true)
    (hr : (runRc (DefaultRc.New true) ops).reviveSet = true)
    (hd : (runRc (DefaultRc.New true) ops).refDisposeCount = 0) :
    (stepRc (runRc (DefaultRc.New true) ops) .clone).refDisposeCount = 0 ∧
    (stepRc (runRc (DefaultRc.New true) ops) .clone).reviveCount =
      (runRc (DefaultRc.New true) ops).reviveCount + 1 ∧
    stepRc (stepRc (runRc (DefaultRc.New true) ops) .clone) .callDeferred =
      stepRc (runRc (DefaultRc.New true) ops) .clone ∧
    ((runRc (stepRc (runRc (DefaultRc.New true) ops) .clone) more).refLive = false →
      (runRc (stepRc (runRc (DefaultRc.New true) ops) .clone) more).refDisposeCount
        = 1) :=
  rc_revive_general (runRc (DefaultRc.New true) ops) more hc hl hr hd

/-- C5 witness: dispose the only handle with a debounce-style callback
(stash the closure, return a revive function), clone during the window, then
dispose the new handle with an immediate callback: the resource ends up
disposed exactly once. -/
theorem rc_revive_prevents_dispose_witness :
    (runRc (stepRc (runRc (DefaultRc.New true) [RcOp.dispose 0 ⟨false, true, true⟩])
        .clone) [RcOp.dispose 1 ⟨true, false, false⟩]).refDisposeCount = 1 :=
  (rc_revive_prevents_dispose [RcOp.dispose 0 ⟨false, true, true⟩]
    [RcOp.dispose 1 ⟨true, false, false⟩]
    (by decide) (by decide) (by decide) (by decide)).2.2.2 (by decide)

end Theia
